import Mathlib

/-!
Shallow embedding of the Grok-MCP adapter (src/src/server.py and
src/src/utils.py): the capability classifier, the request-shaping logic of
the chat operations, the live-search source synthesis, the stateful-response
output-array parsing, and the image-generation response mapping.

Python dicts with a fixed set of optionally-present keys are embedded as
structures with Option fields; Python truthiness of optional strings and
lists is embedded explicitly ("" and [] are falsy); a ValueError raised
before the HTTP call is embedded as Except.error; an IndexError is embedded
as Option.none.  Timeouts (floats in the source, always whole seconds) are
embedded as Nat seconds.
-/

/-- Python truthiness of an optional string: None and "" are falsy. -/
def truthyStr : Option String → Bool
  | none => false
  | some s => s != ""

/-- Python truthiness of an optional list: None and [] are falsy. -/
def truthyList {α : Type} : Option (List α) → Bool
  | none => false
  | some [] => false
  | some (_ :: _) => true

/-- A chat message dict {role, content} (conversation_history entries and
the messages arrays are Dict[str, str] in the source). -/
structure Message where
  role : String
  content : String
deriving Repr, DecidableEq

/-- utils.py line 18: REASONING_MODELS = ["grok-4", "grok-3-mini", "grok-3-mini-fast"]. -/
def REASONING_MODELS : List String := ["grok-4", "grok-3-mini", "grok-3-mini-fast"]

/-- utils.py lines 66-67: is_reasoning_model (Python membership test). -/
def is_reasoning_model (model : String) : Bool :=
  decide (model ∈ REASONING_MODELS)

/-- utils.py lines 79-82: get_model_timeout (600.0 for reasoning models, 120.0 otherwise). -/
def get_model_timeout (model : String) : Nat :=
  if is_reasoning_model model then 600 else 120

/-- The default timeout parameter of create_client (utils.py line 48), used by the
operations that call create_client() without a timeout argument
(list_models, generate_image, chat_with_vision, live_search,
retrieve_stateful_response, delete_stateful_response). -/
def DEFAULT_CLIENT_TIMEOUT : Nat := 120

/-- live_search builds its client with create_client() (server.py line 458),
so its per-call timeout is the default, whatever the invoked model. -/
def live_search_timeout (_model : String) : Nat := DEFAULT_CLIENT_TIMEOUT

/-- stateful_chat builds its client with timeout = get_model_timeout(model)
(server.py line 547). -/
def stateful_chat_timeout (model : String) : Nat := get_model_timeout model

/-- The request body assembled by chat / chat_with_reasoning before the
HTTP post: the "model" and "messages" keys are always present, the rest are
optionally attached keys of request_data. -/
structure ChatRequest where
  model : String
  messages : List Message
  temperature : Option ℚ
  max_tokens : Option Nat
  top_p : Option ℚ
  presence_penalty : Option ℚ
  frequency_penalty : Option ℚ
  stop : Option (List String)
  reasoning_effort : Option String
deriving Repr, DecidableEq

/-- The pre-network phase of chat (server.py lines 213-262): clears the
global conversation_history when use_conversation_history is false, builds
the messages array and request_data, validates reasoning_effort, and picks
the client timeout.  Returns the conversation_history as left by this phase
together with either the ValueError raised before any network call or the
request body paired with the client timeout. -/
def chat_prepare (history : List Message) (prompt model : String)
    (system_prompt : Option String) (use_conversation_history : Bool)
    (temperature : Option ℚ) (max_tokens : Option Nat) (top_p : Option ℚ)
    (presence_penalty frequency_penalty : Option ℚ)
    (stop : Option (List String)) (reasoning_effort : Option String) :
    List Message × Except String (ChatRequest × Nat) :=
  let conversation_history := if use_conversation_history then history else []
  let messages :=
    (if truthyStr system_prompt && conversation_history.isEmpty then
      [⟨"system", system_prompt.getD ""⟩] else [])
    ++ conversation_history ++ [⟨"user", prompt⟩]
  let base : ChatRequest :=
    ⟨model, messages, temperature, max_tokens, top_p, none, none, none, none⟩
  let req : Except String ChatRequest :=
    if is_reasoning_model model then
      if truthyStr reasoning_effort && model != "grok-4" then
        if reasoning_effort.getD "" = "low" ∨ reasoning_effort.getD "" = "high" then
          Except.ok { base with reasoning_effort := reasoning_effort }
        else
          Except.error "reasoning effort must be low or high"
      else
        Except.ok base
    else
      Except.ok { base with
        presence_penalty := presence_penalty,
        frequency_penalty := frequency_penalty,
        stop := stop }
  (conversation_history, req.map (fun r => (r, get_model_timeout model)))

/-- The post-success phase of chat (server.py lines 270-278): when
use_conversation_history is true, appends the user prompt and the assistant
response to the conversation_history left by chat_prepare. -/
def chat_finish (history : List Message) (use_conversation_history : Bool)
    (prompt assistant_response : String) : List Message :=
  if use_conversation_history then
    history ++ [⟨"user", prompt⟩, ⟨"assistant", assistant_response⟩]
  else history

/-- server.py line 313: the model allow-list of chat_with_reasoning. -/
def reasoning_chat_allowed_models : List String :=
  ["grok-4", "grok-3-mini", "grok-3-mini-fast", "grok-4-1-fast-reasoning"]

/-- The pre-network phase of chat_with_reasoning (server.py lines 313-347):
rejects models outside the allow-list, builds messages and request_data,
validates reasoning_effort, and uses the hard-coded 3600.0-second client
timeout of line 347. -/
def chat_with_reasoning_build (prompt model : String)
    (system_prompt : Option String) (reasoning_effort : Option String)
    (temperature : Option ℚ) (max_tokens : Option Nat) (top_p : Option ℚ) :
    Except String (ChatRequest × Nat) :=
  if model ∈ reasoning_chat_allowed_models then
    let messages :=
      (if truthyStr system_prompt then [⟨"system", system_prompt.getD ""⟩] else [])
      ++ [⟨"user", prompt⟩]
    let base : ChatRequest :=
      ⟨model, messages, temperature, max_tokens, top_p, none, none, none, none⟩
    if truthyStr reasoning_effort && model != "grok-4" then
      if reasoning_effort.getD "" = "low" ∨ reasoning_effort.getD "" = "high" then
        Except.ok ({ base with reasoning_effort := reasoning_effort }, 3600)
      else
        Except.error "reasoning effort must be low or high"
    else
      Except.ok (base, 3600)
  else
    Except.error "model is not a reasoning model"

/-- Projection of the messages array out of a prepared call. -/
def prepared_messages : Except String (ChatRequest × Nat) → Option (List Message)
  | Except.ok (r, _) => some r.messages
  | Except.error _ => none

/-- Projection of the client timeout out of a prepared call. -/
def prepared_timeout : Except String (ChatRequest × Nat) → Option Nat
  | Except.ok (_, t) => some t
  | Except.error _ => none

/-- A search source descriptor dict as built or accepted by live_search:
{"type": ..., "country": ..., "links": ...} with only the present keys. -/
structure SourceDesc where
  type : String
  country : Option String
  links : Option (List String)
deriving Repr, DecidableEq

/-- The sources field of the search_parameters of live_search (server.py lines
428-450): an explicit truthy sources argument is passed through; otherwise,
when country or rss_links is truthy, web/news/x entries (scoped to country
when truthy) are synthesized, followed by one rss entry per link; otherwise
no sources key is set. -/
def live_search_sources (country : Option String)
    (rss_links : Option (List String)) (sources : Option (List SourceDesc)) :
    Option (List SourceDesc) :=
  if truthyList sources then
    sources
  else if truthyStr country || truthyList rss_links then
    let default_sources :=
      if truthyStr country then
        [⟨"web", country, none⟩, ⟨"news", country, none⟩, ⟨"x", none, none⟩]
      else
        [⟨"web", none, none⟩, ⟨"news", none, none⟩, ⟨"x", none, none⟩]
    let default_sources :=
      match rss_links with
      | none => default_sources
      | some links => default_sources ++ links.map (fun l => ⟨"rss", none, some [l]⟩)
    some default_sources
  else
    none

/-- the search_parameters of live_search dict (server.py lines 416-450); keys that
the code attaches only conditionally are Option fields. -/
structure SearchParams where
  mode : String
  return_citations : Bool
  from_date : Option String
  to_date : Option String
  max_search_results : Option Nat
  sources : Option (List SourceDesc)
deriving Repr, DecidableEq

/-- Assembly of the search_parameters of live_search (server.py lines 416-450):
from_date and to_date are attached when truthy, max_search_results only when
it differs from the default 20, and sources per live_search_sources. -/
def build_search_params (mode : String) (return_citations : Bool)
    (from_date to_date : Option String) (max_search_results : Nat)
    (country : Option String) (rss_links : Option (List String))
    (sources : Option (List SourceDesc)) : SearchParams :=
  { mode := mode
    return_citations := return_citations
    from_date := if truthyStr from_date then from_date else none
    to_date := if truthyStr to_date then to_date else none
    max_search_results :=
      if max_search_results ≠ 20 then some max_search_results else none
    sources := live_search_sources country rss_links sources }

/-- One element of the "content" list of a message item in the
output array: {"type": ..., "text": ...} with possibly missing keys. -/
structure OutputContentPart where
  type : Option String
  text : Option String
deriving Repr, DecidableEq

/-- One element of the "summary" list of a reasoning item in the
output array of a stateful response. -/
structure OutputSummaryPart where
  type : Option String
  text : Option String
deriving Repr, DecidableEq

/-- One item of the heterogeneous output array of a stateful response; the code
reads item.get("type"), item.get("role"), item.get("content", []) and
item.get("summary", []). -/
structure OutputItem where
  type : Option String
  role : Option String
  content : List OutputContentPart
  summary : List OutputSummaryPart
deriving Repr, DecidableEq

/-- The inner loop over the content of a message item (server.py lines 563-566
and 621-624): the first part whose type is "output_text" yields
part.get("text", "") and breaks; none yields no assignment. -/
def firstOutputText : List OutputContentPart → Option String
  | [] => none
  | p :: rest =>
    if p.type = some "output_text" then some (p.text.getD "")
    else firstOutputText rest

/-- The inner loop over the summary of a reasoning item (server.py lines 568-571
and 626-629): the first part whose type is "summary_text" yields
part.get("text", "") and breaks. -/
def firstSummaryText : List OutputSummaryPart → Option String
  | [] => none
  | p :: rest =>
    if p.type = some "summary_text" then some (p.text.getD "")
    else firstSummaryText rest

/-- One iteration of the outer loop over the output array (server.py lines
561-571 and 619-629), threading the (content, reasoning) state: an
assistant message item with an output_text part overwrites content, a
reasoning item with a summary_text part overwrites reasoning; the break in
the source exits only the inner loop, so the outer loop continues past a
matching item. -/
def parseOutputStep (st : String × Option String) (item : OutputItem) :
    String × Option String :=
  if item.type = some "message" ∧ item.role = some "assistant" then
    match firstOutputText item.content with
    | some t => (t, st.2)
    | none => st
  else if item.type = some "reasoning" then
    match firstSummaryText item.summary with
    | some t => (st.1, some t)
    | none => st
  else st

/-- The output-array parsing shared verbatim by stateful_chat (server.py
lines 557-571) and retrieve_stateful_response (lines 614-629): content
starts as "" and reasoning as None. -/
def parse_output (output : List OutputItem) : String × Option String :=
  output.foldl parseOutputStep ("", none)

/-- A convenient assistant message output item with a single output_text
part. -/
def msgItem (t : String) : OutputItem :=
  ⟨some "message", some "assistant", [⟨some "output_text", some t⟩], []⟩

/-- A convenient reasoning output item with a single summary_text part. -/
def reasoningItem (t : String) : OutputItem :=
  ⟨some "reasoning", none, [], [⟨some "summary_text", some t⟩]⟩

/-- An image entry dict of the "data" list of the image-generation response; the
code reads only entry.get("revised_prompt", ""). -/
structure ImageEntry where
  url : Option String
  b64_json : Option String
  revised_prompt : Option String
deriving Repr, DecidableEq

/-- The result dict of generate_image: the raw image-entry list and the
revised prompt extracted from the first entry. -/
structure GenerateImageResult where
  images : List ImageEntry
  revised_prompt : String
deriving Repr, DecidableEq

/-- The response mapping of generate_image (server.py lines 97-104): images =
data.get("data", []), revised_prompt = images[0].get("revised_prompt", "").
The subscript images[0] raises IndexError on an empty list, embedded as
none. -/
def generate_image_parse : List ImageEntry → Option GenerateImageResult
  | [] => none
  | e :: rest => some ⟨e :: rest, e.revised_prompt.getD ""⟩

/-- C1 counterexample: on an output array holding two assistant message
items (texts "A" then "B") and two reasoning items (summaries "R1" then
"R2"), the parser shared by stateful_chat and retrieve_stateful_response
returns the texts of the LAST items, ("B", "R2"), not the firsts ("A",
"R1") that the claim requires: the break exits only the inner loop, so a
later item of the same kind overwrites an earlier one. -/
theorem C1_counterexample :
    parse_output [msgItem "A", reasoningItem "R1", msgItem "B", reasoningItem "R2"]
      = ("B", some "R2")
    ∧ parse_output [msgItem "A", reasoningItem "R1", msgItem "B", reasoningItem "R2"]
      ≠ ("A", some "R1") := by
  constructor
  · rfl
  · decide

/-- C1 (amended): the parser returns the first output_text part of the LAST
assistant-message item containing one and the first summary_text part of
the LAST reasoning item containing one; within each item only the first
matching part is used, but later items of the same kind overwrite earlier
ones. -/
theorem C1_amended (pre : List OutputItem) (m r : OutputItem) (t s : String)
    (hmt : m.type = some "message") (hmr : m.role = some "assistant")
    (hmc : firstOutputText m.content = some t)
    (hrt : r.type = some "reasoning")
    (hrs : firstSummaryText r.summary = some s) :
    (parse_output (pre ++ [m])).1 = t ∧ (parse_output (pre ++ [r])).2 = some s := by
  constructor
  · unfold parse_output
    rw [List.foldl_append]
    simp [parseOutputStep, hmt, hmr, hmc]
  · unfold parse_output
    rw [List.foldl_append]
    simp [parseOutputStep, hrt, hrs]

/-- C1 witness: the amended behaviour at a concrete input with a duplicate
assistant message item and a trailing reasoning item. -/
theorem C1_amended_witness :
    (parse_output ([msgItem "A"] ++ [msgItem "B"])).1 = "B"
    ∧ (parse_output ([msgItem "A"] ++ [reasoningItem "R"])).2 = some "R" :=
  C1_amended [msgItem "A"] (msgItem "B") (reasoningItem "R") "B" "R"
    (by decide) (by decide) (by decide) (by decide) (by decide)

/-- C2 counterexample: with only two RSS links (no country, no explicit
sources) the synthesized source list is NOT [{rss,l1},{rss,l2}]: the code
first appends the three unscoped web/news/x entries and only then one rss
entry per link. -/
theorem C2_counterexample :
    live_search_sources none (some ["l1", "l2"]) none
      = some [⟨"web", none, none⟩, ⟨"news", none, none⟩, ⟨"x", none, none⟩,
              ⟨"rss", none, some ["l1"]⟩, ⟨"rss", none, some ["l2"]⟩]
    ∧ live_search_sources none (some ["l1", "l2"]) none
      ≠ some [⟨"rss", none, some ["l1"]⟩, ⟨"rss", none, some ["l2"]⟩] := by
  constructor
  · rfl
  · decide

/-- C2 (amended): given only a non-empty country code, the synthesized
source list is exactly [{web,country},{news,country},{x}]; given only RSS
links, it is the three unscoped entries {web},{news},{x} followed by one
{rss,[link]} entry per link; given a non-empty explicit source list, it is
passed through unchanged regardless of the country and RSS arguments. -/
theorem C2_amended (c l1 l2 : String) (hc : c ≠ "")
    (src : List SourceDesc) (hs : src ≠ [])
    (country0 : Option String) (rss0 : Option (List String)) :
    live_search_sources (some c) none none
      = some [⟨"web", some c, none⟩, ⟨"news", some c, none⟩, ⟨"x", none, none⟩]
    ∧ live_search_sources none (some [l1, l2]) none
      = some [⟨"web", none, none⟩, ⟨"news", none, none⟩, ⟨"x", none, none⟩,
              ⟨"rss", none, some [l1]⟩, ⟨"rss", none, some [l2]⟩]
    ∧ live_search_sources country0 rss0 (some src) = some src := by
  refine ⟨?_, ?_, ?_⟩
  · simp [live_search_sources, truthyStr, truthyList, hc]
  · rfl
  · cases src with
    | nil => exact absurd rfl hs
    | cons a as => simp [live_search_sources, truthyList]

/-- C2 witness: the amended source-list synthesis at concrete inputs. -/
theorem C2_amended_witness :
    live_search_sources (some "us") none none
      = some [⟨"web", some "us", none⟩, ⟨"news", some "us", none⟩, ⟨"x", none, none⟩]
    ∧ live_search_sources none (some ["a", "b"]) none
      = some [⟨"web", none, none⟩, ⟨"news", none, none⟩, ⟨"x", none, none⟩,
              ⟨"rss", none, some ["a"]⟩, ⟨"rss", none, some ["b"]⟩]
    ∧ live_search_sources (some "us") (some ["a"]) (some [⟨"x", none, none⟩])
      = some [⟨"x", none, none⟩] :=
  C2_amended "us" "a" "b" (by decide) [⟨"x", none, none⟩] (by decide)
    (some "us") (some ["a"])

/-- C7: the claim is right and the code is wrong: "grok-4-1-fast-reasoning"
is in the allow-list of chat_with_reasoning (whose docstring
calls it a reasoning model), yet is_reasoning_model returns false for it
because utils.REASONING_MODELS was not extended; for the other three
allow-listed models the classifier returns true, and every model outside
REASONING_MODELS (a sublist of the allow-list) yields false. -/
theorem C7_bug_eval :
    "grok-4-1-fast-reasoning" ∈ reasoning_chat_allowed_models
    ∧ is_reasoning_model "grok-4-1-fast-reasoning" = false
    ∧ is_reasoning_model "grok-4" = true
    ∧ is_reasoning_model "grok-3-mini" = true
    ∧ is_reasoning_model "grok-3-mini-fast" = true := by
  decide

/-- C9 counterexample: when the upstream "data" list is empty,
the extraction of the revised prompt from the first image entry fails
(images[0] raises IndexError) instead of being total as the claim
states. -/
theorem C9_counterexample :
    generate_image_parse [] = none := rfl

/-- C9 (amended): for every non-empty image-entry list the operation
returns the raw list together with the revised prompt of the first entry,
defaulting to "" when the revised_prompt key is absent; on the empty list
the extraction fails (IndexError) rather than returning a default. -/
theorem C9_amended (e : ImageEntry) (rest : List ImageEntry) :
    generate_image_parse (e :: rest) = some ⟨e :: rest, e.revised_prompt.getD ""⟩
    ∧ generate_image_parse ({ e with revised_prompt := none } :: rest)
      = some ⟨{ e with revised_prompt := none } :: rest, ""⟩
    ∧ generate_image_parse [] = none := by
  exact ⟨rfl, rfl, rfl⟩

/-- C10: max_search_results is attached to the search-parameters object
exactly when the supplied value differs from the default 20; passing 20
explicitly attaches nothing. -/
theorem C10_confirmed (mode : String) (rc : Bool) (fd td : Option String)
    (n : Nat) (country : Option String) (rss : Option (List String))
    (srcs : Option (List SourceDesc)) :
    (build_search_params mode rc fd td n country rss srcs).max_search_results
      = (if n ≠ 20 then some n else none)
    ∧ (build_search_params mode rc fd td 20 country rss srcs).max_search_results
      = none := by
  constructor
  · rfl
  · simp [build_search_params]

/-- C3: the claimed invariant fails, and the failure is a code bug: with
model "grok-4-1-fast-reasoning" and reasoning_effort "low",
chat_with_reasoning attaches reasoning_effort to the request body although
the capability classifier does not count that model as reasoning-capable —
utils.REASONING_MODELS is out of sync with the allow-list and with the
docstring that names grok-4-1-fast-reasoning a reasoning model. -/
theorem C3_bug_eval :
    chat_with_reasoning_build "p" "grok-4-1-fast-reasoning" none (some "low")
        none none none
      = Except.ok
          (⟨"grok-4-1-fast-reasoning", [⟨"user", "p"⟩], none, none, none,
            none, none, none, some "low"⟩, 3600)
    ∧ is_reasoning_model "grok-4-1-fast-reasoning" = false := by
  exact ⟨rfl, rfl⟩

/-- C4 counterexample: with model "grok-4" (reasoning-capable) and the
invalid reasoning_effort "banana", both basic chat and reasoning chat
build their request without raising: the guard model != "grok-4" silently
skips the validation instead of rejecting the value. -/
theorem C4_counterexample :
    ((chat_prepare [] "p" "grok-4" none false none none none none none none
        (some "banana")).2).isOk = true
    ∧ (chat_with_reasoning_build "p" "grok-4" none (some "banana")
        none none none).isOk = true
    ∧ is_reasoning_model "grok-4" = true
    ∧ ¬("banana" = "low" ∨ "banana" = "high") := by
  refine ⟨rfl, rfl, rfl, by decide⟩

/-- C4 (amended): a non-empty reasoning_effort outside {low, high} raises
ValueError before any network call when the model is reasoning-capable and
different from grok-4 (basic chat, model m), and when the model is
allow-listed and different from grok-4 (reasoning chat, model mr — the
allow-list, not the classifier, is what gates the validation there, so
grok-4-1-fast-reasoning is covered); with grok-4 itself the invalid value
is silently dropped and the request is built without error. -/
theorem C4_amended (st : List Message) (p e m mr : String)
    (hm : is_reasoning_model m = true) (hg : m ≠ "grok-4")
    (hmem : mr ∈ reasoning_chat_allowed_models) (hgr : mr ≠ "grok-4")
    (he : e ≠ "") (hl : e ≠ "low") (hh : e ≠ "high") :
    ((chat_prepare st p m none false none none none none none none
        (some e)).2).isOk = false
    ∧ (chat_with_reasoning_build p mr none (some e) none none none).isOk = false
    ∧ ((chat_prepare st p "grok-4" none false none none none none none none
        (some e)).2).isOk = true
    ∧ (chat_with_reasoning_build p "grok-4" none (some e)
        none none none).isOk = true := by
  refine ⟨?_, ?_, ?_, ?_⟩
  · simp [chat_prepare, hm, truthyStr, bne_iff_ne, he, hg, hl, hh,
      Except.map, Except.isOk, Except.toBool]
  · simp [chat_with_reasoning_build, hmem, truthyStr, bne_iff_ne, he, hgr,
      hl, hh, Except.isOk, Except.toBool]
  · simp [chat_prepare, is_reasoning_model, REASONING_MODELS, truthyStr,
      Except.map, Except.isOk, Except.toBool]
  · simp [chat_with_reasoning_build, reasoning_chat_allowed_models,
      truthyStr, Except.isOk, Except.toBool]

/-- C4 witness: the amended behaviour for the invalid effort "banana" on
grok-3-mini in basic chat and on the allow-listed but not
classifier-reasoning grok-4-1-fast-reasoning in reasoning chat (both
rejected before any network call), and on grok-4 (silently accepted in
both operations). -/
theorem C4_amended_witness :
    ((chat_prepare [] "x" "grok-3-mini" none false none none none none none
        none (some "banana")).2).isOk = false
    ∧ (chat_with_reasoning_build "x" "grok-4-1-fast-reasoning" none
        (some "banana") none none none).isOk = false
    ∧ ((chat_prepare [] "x" "grok-4" none false none none none none none none
        (some "banana")).2).isOk = true
    ∧ (chat_with_reasoning_build "x" "grok-4" none (some "banana")
        none none none).isOk = true :=
  C4_amended [] "x" "banana" "grok-3-mini" "grok-4-1-fast-reasoning"
    (by decide) (by decide) (by decide) (by decide) (by decide) (by decide)
    (by decide)

/-- C5 counterexample: a basic-chat call with use_conversation_history =
false mutates the shared Conversation: it sets the global
conversation_history to the empty list before doing anything else, so a
previously non-empty history does not survive the call (even a failing
one). -/
theorem C5_counterexample :
    (chat_prepare [⟨"user", "a"⟩, ⟨"assistant", "b"⟩] "p"
        "grok-4-1-fast-non-reasoning" none false none none none none none
        none none).1 = []
    ∧ ([⟨"user", "a"⟩, ⟨"assistant", "b"⟩] : List Message) ≠ [] := by
  exact ⟨rfl, by decide⟩

/-- C5 (amended): basic chat with use_conversation_history = false always
sends exactly one message, or two when a system prompt is given (the
built request, when one is built, contains exactly the optional system
message followed by the user message), regardless of prior calls; the
shared Conversation is cleared to the empty list at the start of the call
— including when the call later fails — and the success path adds nothing
back. -/
theorem C5_amended (st : List Message) (prompt model : String)
    (sp : Option String) (t : Option ℚ) (mt : Option Nat)
    (tp pp fp : Option ℚ) (stop0 : Option (List String))
    (re : Option String) (r : String) :
    (chat_prepare st prompt model sp false t mt tp pp fp stop0 re).1 = []
    ∧ (prepared_messages
        (chat_prepare st prompt model sp false t mt tp pp fp stop0 re).2 = none
       ∨ prepared_messages
          (chat_prepare st prompt model sp false t mt tp pp fp stop0 re).2
         = some ((if truthyStr sp then [⟨"system", sp.getD ""⟩] else [])
                 ++ [⟨"user", prompt⟩]))
    ∧ chat_finish
        (chat_prepare st prompt model sp false t mt tp pp fp stop0 re).1
        false prompt r = [] := by
  refine ⟨rfl, ?_, rfl⟩
  by_cases hrm : is_reasoning_model model
  · by_cases hre : (truthyStr re && (model != "grok-4")) = true
    · by_cases hv : re.getD "" = "low" ∨ re.getD "" = "high"
      · right
        simp [chat_prepare, prepared_messages, hrm, hre, hv, Except.map]
      · left
        simp [chat_prepare, prepared_messages, hrm, hre, hv, Except.map]
    · right
      simp [chat_prepare, prepared_messages, hrm, hre, Except.map]
  · right
    simp [chat_prepare, prepared_messages, hrm, Except.map]

/-- C6: two sequential successful basic-chat calls with
use_conversation_history = true from an empty Conversation: the first
request is the optional system message followed by the first user message
(the Conversation was empty, so the system prompt is honored); the
Conversation then holds exactly the first user message and the first
assistant response (the system message is not persisted); the second
request is, in order, the first user message, the first assistant
response, and the second user message — with no system message, since the
Conversation was no longer empty when the second system prompt was
supplied. -/
theorem C6_confirmed (model p1 p2 r1 : String) (s1 s2 : Option String) :
    prepared_messages
      (chat_prepare [] p1 model s1 true none none none none none none none).2
      = some ((if truthyStr s1 then [⟨"system", s1.getD ""⟩] else [])
              ++ [⟨"user", p1⟩])
    ∧ chat_finish
        (chat_prepare [] p1 model s1 true none none none none none none none).1
        true p1 r1
      = [⟨"user", p1⟩, ⟨"assistant", r1⟩]
    ∧ prepared_messages
        (chat_prepare
          (chat_finish
            (chat_prepare [] p1 model s1 true none none none none none none none).1
            true p1 r1)
          p2 model s2 true none none none none none none none).2
      = some [⟨"user", p1⟩, ⟨"assistant", r1⟩, ⟨"user", p2⟩] := by
  refine ⟨?_, rfl, ?_⟩
  · by_cases hrm : is_reasoning_model model <;>
      simp [chat_prepare, prepared_messages, hrm, truthyStr, Except.map]
  · by_cases hrm : is_reasoning_model model <;>
      simp [chat_prepare, chat_finish, prepared_messages, hrm, truthyStr,
        Except.map]

/-- C8 counterexample: chat_with_reasoning builds its client with the
hard-coded 3600-second timeout of server.py line 347, not with
get_model_timeout of the invoked model — for grok-3-mini the classifier
fixes 600 seconds, yet the call uses 3600. -/
theorem C8_counterexample :
    prepared_timeout
      (chat_with_reasoning_build "p" "grok-3-mini" none none none none none)
      = some 3600
    ∧ get_model_timeout "grok-3-mini" = 600
    ∧ (3600 : Nat) ≠ 600 := by
  exact ⟨rfl, rfl, by decide⟩

/-- C8 (amended): get_model_timeout returns 600 seconds for every
reasoning-capable model and 120 for every other model; basic chat and
stateful_chat use get_model_timeout of the invoked model as their per-call
client timeout, but chat_with_reasoning always uses a fixed 3600 seconds,
and live_search (like the remaining operations) uses the create_client
default of 120 seconds whatever the model. -/
theorem C8_amended (m p : String) (st : List Message) :
    get_model_timeout m = (if is_reasoning_model m then 600 else 120)
    ∧ prepared_timeout
        (chat_prepare st p m none false none none none none none none none).2
      = some (get_model_timeout m)
    ∧ stateful_chat_timeout m = get_model_timeout m
    ∧ (prepared_timeout (chat_with_reasoning_build p m none none none none none)
        = none
       ∨ prepared_timeout (chat_with_reasoning_build p m none none none none none)
        = some 3600)
    ∧ live_search_timeout m = 120 := by
  refine ⟨rfl, ?_, rfl, ?_, rfl⟩
  · by_cases hrm : is_reasoning_model m <;>
      simp [chat_prepare, prepared_timeout, hrm, truthyStr, Except.map]
  · by_cases hmem : m ∈ reasoning_chat_allowed_models
    · right
      simp [chat_with_reasoning_build, prepared_timeout, hmem, truthyStr]
    · left
      simp [chat_with_reasoning_build, prepared_timeout, hmem]
